import Mathlib

/-
Shallow embedding of src/lambda_function_03_bedrock.py, the WhatsApp
webhook adapter that bridges Meta webhook deliveries to a Bedrock agent.

Modelling conventions:
  - JSON values decoded by json.loads are the inductive type Json below.
  - Python exceptions raised while traversing the payload are modelled by
    the Except String monad (the error string models str(e)); the message
    texts follow CPython where it matters and drop the quote characters
    around type names.
  - The Bedrock call and the WhatsApp transport are collaborators: their
    behaviour is a parameter of the handler (BackendResult,
    TransportResult), exactly the data the source branches on. The
    Bedrock call can fail two ways: a ClientError (service error
    response), which the source catches, and a transport-level
    BotoCoreError (connect or read timeout, endpoint failure), which the
    except ClientError clause does not catch and which therefore
    propagates out of invoke_agent.
  - Calls made to the agent backend and to the outbound transport are
    collected in an Effects record so invocation (or its absence) is
    observable. The record travels with the raised-exception path too,
    because a call that was already made stays made when a later
    statement raises.
  - The S3 audit writes (store_event_to_s3) swallow every exception and
    have no observable effect on the response, so they are not modelled.
-/

namespace WhatsappWebhook

/-- JSON value, as produced by json.loads. Numbers are modelled as
integers, which covers every payload the handler inspects. -/
inductive Json where
  | null
  | bool (b : Bool)
  | num (n : Int)
  | str (s : String)
  | arr (elems : List Json)
  | obj (fields : List (String × Json))

/-- Python truthiness of a decoded JSON value: None, False, 0, empty
string, empty list and empty dict are falsy (used by `if not messages`). -/
def Json.falsy : Json → Bool
  | .null => true
  | .bool b => !b
  | .num n => n == 0
  | .str s => s == ""
  | .arr elems => elems.isEmpty
  | .obj fields => fields.isEmpty

/-- Python type name of a decoded JSON value, used in exception texts. -/
def Json.pyTypeName : Json → String
  | .null => "NoneType"
  | .bool _ => "bool"
  | .num _ => "int"
  | .str _ => "str"
  | .arr _ => "list"
  | .obj _ => "dict"

/-- Python expression x.get(key, dflt): succeeds on a dict, returning the
value bound to key or the default; raises AttributeError on any other
value. -/
def dictGet (j : Json) (key : String) (dflt : Json) : Except String Json :=
  match j with
  | .obj fields => .ok ((fields.lookup key).getD dflt)
  | _ => .error (j.pyTypeName ++ " object has no attribute get")

/-- Python expression x[0]: first element of a non-empty list (or the
first character of a non-empty string); raises IndexError when empty,
KeyError on a dict (whose str(e) is just the repr of the key) and
TypeError on non-sequences. -/
def index0 (j : Json) : Except String Json :=
  match j with
  | .arr [] => .error "list index out of range"
  | .arr (x :: _) => .ok x
  | .str s =>
      if s.isEmpty then .error "string index out of range"
      else .ok (.str (String.singleton s.front))
  | .obj _ => .error "0"
  | _ => .error (j.pyTypeName ++ " object is not subscriptable")

/-- One event of the Bedrock completion stream, as classified by the
branches of the aggregation loop (lines 102-108 of the source). A chunk
event carries its payload as the UTF-8 decoding of event["chunk"]["bytes"]
(the loop decodes the bytes immediately, so the model represents the bytes
by their decoded text). A chunk key whose dict lacks a bytes key falls
through to the warning branch, like any unrecognized shape. -/
inductive AgentEvent where
  | chunk (text : String)
  | chunkNoBytes
  | trace
  | other

/-- One iteration of the aggregation loop (lines 102-108): chunk text is
appended to the accumulator; trace events are logged at debug level and
skipped; anything else is logged as a warning and skipped. -/
def aggregateStep (acc : String) (e : AgentEvent) : String :=
  match e with
  | .chunk text => acc ++ text
  | .chunkNoBytes => acc
  | .trace => acc
  | .other => acc

/-- The aggregation loop of invoke_agent (lines 101-110): fold the events
in delivery order starting from the empty accumulator. -/
def aggregate (events : List AgentEvent) : String :=
  events.foldl aggregateStep ""

/-- Decoded text carried by a chunk event; none for every other shape. -/
def chunkText : AgentEvent → Option String
  | .chunk text => some text
  | _ => none

/-- Concatenation of a list of strings in order. -/
def concatAll (xs : List String) : String :=
  xs.foldr (fun a b => a ++ b) ""

/-- Outcome of the bedrock_agent_runtime_client.invoke_agent call:
  - clientError: the service answered with an error, raised as a
    botocore ClientError (carrying str(error)) — caught at lines 112-114;
  - botoCoreError: a transport-level failure (BotoCoreError subclasses
    such as ConnectTimeoutError, ReadTimeoutError or
    EndpointConnectionError, carrying str(error)) — NOT a ClientError,
    so the except clause at line 112 does not catch it;
  - ok: a response dict whose completion entry is absent (none) or a
    stream of events (modelled as the list of events it yields). -/
inductive BackendResult where
  | clientError (msg : String)
  | botoCoreError (msg : String)
  | ok (completion : Option (List AgentEvent))

/-- invoke_agent (lines 72-114). The query, session id and session state
only flow into the backend call, whose outcome is the backend parameter,
so the model takes that outcome directly. response.get("completion") is
None exactly when the key is absent, and None is falsy; a present
botocore EventStream defines neither bool nor len, so `if not completion`
is false even when the stream yields no events, and the loop then
returns the empty accumulator. A ClientError is caught and turned into a
text embedding str(error); a transport-level BotoCoreError is not caught
and propagates to the caller. -/
def invoke_agent (backend : BackendResult) : Except String String :=
  match backend with
  | .clientError msg => .ok ("Error invoking agent: " ++ msg)
  | .botoCoreError msg => .error msg
  | .ok none => .ok "No response from the agent."
  | .ok (some events) => .ok (aggregate events)

/-- Outcome of the http.request call inside send_whatsapp_message: a
status code on success, or a raised exception (carrying str(e)). -/
inductive TransportResult where
  | ok (status : Nat)
  | failure (msg : String)

/-- send_whatsapp_message (lines 44-69): issues one send; a success is
logged, and any exception is caught and logged (lines 65-69). In both
cases the function returns None and nothing propagates to the caller. -/
def send_whatsapp_message (transport : TransportResult) (toNumber : Json)
    (messageBody : String) : Unit :=
  match transport with
  | .ok _ => ()
  | .failure _ => ()

/-- Environment configuration used by the handler branches: VERIFY_TOKEN
(defaulted to undefined_token when the variable is absent). -/
structure Config where
  verifyToken : String

/-- API Gateway proxy event, restricted to the keys the handler reads.
The raw body string is represented by its json.loads outcome; an absent
body defaults to the two-character object literal, which parses to the
empty object. An absent or null queryStringParameters entry is replaced
by the empty dict (`params = event.get(...) or ...`). -/
structure LambdaEvent where
  httpMethod : Option String
  queryStringParameters : Option (List (String × String))
  body : Option (Except String Json)

/-- json.loads applied to the raw body (line 174), with the default body
of line 154 parsing to the empty object. -/
def rawBodyParse (event : LambdaEvent) : Except String Json :=
  match event.body with
  | none => .ok (.obj [])
  | some r => r

/-- The payload walk of lines 175-180:
parsed_body.get(entry, []) [0] .get(changes, []) [0] .get(value, dict())
.get(messages, []). Each step may raise, exactly as in Python: the
defaults guard only against missing keys, not against empty lists. -/
def extractMessages (parsedBody : Json) : Except String Json := do
  let entry ← dictGet parsedBody "entry" (.arr [])
  let entry0 ← index0 entry
  let changes ← dictGet entry0 "changes" (.arr [])
  let changes0 ← index0 changes
  let value ← dictGet changes0 "value" (.obj [])
  dictGet value "messages" (.arr [])

/-- Line 186: message.get(from), absent key giving None. -/
def extractSender (message : Json) : Except String Json :=
  dictGet message "from" .null

/-- Line 187: message.get(text, dict()).get(body, empty string). -/
def extractText (message : Json) : Except String Json := do
  let textObj ← dictGet message "text" (.obj [])
  dictGet textObj "body" (.str "")

/-- Body of an API Gateway response as the handler builds it: either the
challenge value returned verbatim on GET success (None when the query
parameter was absent), or a json.dumps object with a single error or
message entry. -/
inductive ResponseBody where
  | raw (challenge : Option String)
  | jsonError (msg : String)
  | jsonMessage (msg : String)

/-- The dict returned by lambda_handler: statusCode and body. -/
structure ServiceResponse where
  statusCode : Nat
  body : ResponseBody

/-- Collaborator calls performed during one invocation: the (inputText,
sessionId) pairs passed to the agent backend and the (recipient, text)
pairs passed to the WhatsApp transport, in order. -/
structure Effects where
  agentCalls : List (Json × Json)
  sends : List (Json × String)

/-- The POST branch after json.loads succeeded (lines 175-199): walk the
payload; a falsy messages value short-circuits to 200 with the
informational body; otherwise take the first message, read sender and
text, call the agent (the call is recorded before its outcome is
inspected — the backend was invoked whether or not it raised), then send
the reply and return 200. A raised exception propagates to the
dispatcher catch (the Except component), carrying along the calls
already made. -/
def postHandler (backend : BackendResult) (transport : TransportResult)
    (parsedBody : Json) : Except String ServiceResponse × Effects :=
  match extractMessages parsedBody with
  | .error e => (.error e, ⟨[], []⟩)
  | .ok messages =>
    if messages.falsy then
      (.ok ⟨200, .jsonMessage "No message object found in webhook"⟩, ⟨[], []⟩)
    else
      match index0 messages with
      | .error e => (.error e, ⟨[], []⟩)
      | .ok message =>
        match extractSender message with
        | .error e => (.error e, ⟨[], []⟩)
        | .ok fromNumber =>
          match extractText message with
          | .error e => (.error e, ⟨[], []⟩)
          | .ok textMessage =>
            match invoke_agent backend with
            | .error e => (.error e, ⟨[(textMessage, fromNumber)], []⟩)
            | .ok assistantResponse =>
              let _ := send_whatsapp_message transport fromNumber assistantResponse
              (.ok ⟨200, .jsonMessage "Message processed"⟩,
                ⟨[(textMessage, fromNumber)], [(fromNumber, assistantResponse)]⟩)

/-- lambda_handler (lines 142-206). GET runs the verification handshake
(lines 160-170); POST parses the body and runs postHandler inside the
try, any raised error becoming a 500 whose body carries str(e) (lines
172-203); every other method is rejected with 405 (lines 205-206). -/
def lambda_handler (cfg : Config) (backend : BackendResult)
    (transport : TransportResult) (event : LambdaEvent) :
    ServiceResponse × Effects :=
  let httpMethod := event.httpMethod.getD ""
  if httpMethod = "GET" then
    let params := event.queryStringParameters.getD []
    let mode := params.lookup "hub.mode"
    let token := params.lookup "hub.verify_token"
    let challenge := params.lookup "hub.challenge"
    if mode = some "subscribe" ∧ token = some cfg.verifyToken then
      (⟨200, .raw challenge⟩, ⟨[], []⟩)
    else
      (⟨403, .jsonError "Invalid verification token"⟩, ⟨[], []⟩)
  else if httpMethod = "POST" then
    match rawBodyParse event with
    | .error e => (⟨500, .jsonError e⟩, ⟨[], []⟩)
    | .ok parsedBody =>
      match postHandler backend transport parsedBody with
      | (.ok response, effects) => (response, effects)
      | (.error e, effects) => (⟨500, .jsonError e⟩, effects)
  else
    (⟨405, .jsonError ("Method " ++ httpMethod ++ " not allowed")⟩, ⟨[], []⟩)

/- ------------------------------------------------------------------ -/
/- Helper lemmas shared by the claims                                  -/
/- ------------------------------------------------------------------ -/

/-- Folding the aggregation step from any accumulator appends the
concatenated chunk texts, in order, to that accumulator. -/
theorem aggregate_foldl (events : List AgentEvent) (acc : String) :
    events.foldl aggregateStep acc = acc ++ concatAll (events.filterMap chunkText) := by
  induction events generalizing acc with
  | nil => simp [concatAll]
  | cons e rest ih =>
    cases e <;>
      simp [aggregateStep, chunkText, concatAll, List.filterMap_cons, List.foldl, ih,
        String.append_assoc]

/-- On a GET request the handler runs exactly the verification branch of
lines 160-170. -/
theorem lambda_handler_get (cfg : Config) (backend : BackendResult)
    (transport : TransportResult) (event : LambdaEvent)
    (hmethod : event.httpMethod = some "GET") :
    lambda_handler cfg backend transport event =
      (let params := event.queryStringParameters.getD []
       if params.lookup "hub.mode" = some "subscribe" ∧
           params.lookup "hub.verify_token" = some cfg.verifyToken then
         (⟨200, .raw (params.lookup "hub.challenge")⟩, ⟨[], []⟩)
       else
         (⟨403, .jsonError "Invalid verification token"⟩, ⟨[], []⟩)) := by
  simp [lambda_handler, hmethod]

/-- On a POST request the handler runs the try block of lines 172-203,
any raised error becoming the 500 response with the effects of the calls
already made. -/
theorem lambda_handler_post (cfg : Config) (backend : BackendResult)
    (transport : TransportResult) (event : LambdaEvent)
    (hmethod : event.httpMethod = some "POST") :
    lambda_handler cfg backend transport event =
      (match rawBodyParse event with
       | .error e => (⟨500, .jsonError e⟩, ⟨[], []⟩)
       | .ok parsedBody =>
         match postHandler backend transport parsedBody with
         | (.ok response, effects) => (response, effects)
         | (.error e, effects) => (⟨500, .jsonError e⟩, effects)) := by
  simp [lambda_handler, hmethod]

/-- A POST whose payload walk reaches a truthy messages value, whose
first message yields a sender and a text, and whose backend call returns
normally, is answered 200 after invoking the agent and the transport
with exactly those values. -/
theorem lambda_handler_post_message (cfg : Config) (backend : BackendResult)
    (transport : TransportResult) (event : LambdaEvent)
    (parsedBody messages message fromNumber textMessage : Json)
    (agentResponse : String)
    (hmethod : event.httpMethod = some "POST")
    (hbody : rawBodyParse event = .ok parsedBody)
    (hmsgs : extractMessages parsedBody = .ok messages)
    (hfalsy : messages.falsy = false)
    (hmsg0 : index0 messages = .ok message)
    (hfrom : extractSender message = .ok fromNumber)
    (htext : extractText message = .ok textMessage)
    (hagent : invoke_agent backend = .ok agentResponse) :
    lambda_handler cfg backend transport event =
      (⟨200, .jsonMessage "Message processed"⟩,
       ⟨[(textMessage, fromNumber)], [(fromNumber, agentResponse)]⟩) := by
  rw [lambda_handler_post cfg backend transport event hmethod]
  simp [hbody, postHandler, hmsgs, hfalsy, hmsg0, hfrom, htext, hagent,
    send_whatsapp_message]

/- ------------------------------------------------------------------ -/
/- Claims                                                              -/
/- ------------------------------------------------------------------ -/

/-- C2: aggregation over the completion events is order-preserving and
lossless: the accumulated text equals the concatenation, in delivery
order, of the decoded texts of the chunk events, so trace events and
unrecognized shapes never alter the accumulated text nor abort the fold. -/
theorem c2_aggregation_lossless (events : List AgentEvent) :
    aggregate events = concatAll (events.filterMap chunkText) := by
  have h := aggregate_foldl events ""
  simpa [aggregate] using h

/-- C4 counterexample: a present but empty completion stream, and a
completion holding a single trace event, have no chunk events, yet
invoke_agent returns the empty string, not the fixed fallback — a
present EventStream is truthy even when it yields nothing. -/
theorem c4_counterexample :
    invoke_agent (.ok (some [])) = .ok "" ∧
    invoke_agent (.ok (some [.trace])) = .ok "" ∧
    (Except.ok "" : Except String String) ≠ .ok "No response from the agent." := by
  refine ⟨rfl, rfl, fun h => ?_⟩
  exact absurd (Except.ok.inj h) (by decide)

/-- C4 amended: the fixed fallback string is returned exactly when the
backend reply has no completion object (the key absent, read as None);
a present completion stream containing no chunk events — including a
present but empty stream, since an EventStream is truthy even when it
yields no events — returns the empty string. Nothing is thrown in
either case. -/
theorem c4_empty_completion (events : List AgentEvent)
    (hnochunk : events.filterMap chunkText = []) :
    invoke_agent (.ok none) = .ok "No response from the agent." ∧
    invoke_agent (.ok (some events)) = .ok "" := by
  refine ⟨rfl, ?_⟩
  have h : aggregate events = "" := by
    rw [aggregate, aggregate_foldl, hnochunk]
    rfl
  simp [invoke_agent, h]

/-- C4 witness for the amended statement, at a completion made only of
skipped events. -/
theorem c4_empty_completion_witness :
    ([AgentEvent.trace, AgentEvent.other, AgentEvent.chunkNoBytes].filterMap chunkText
      = []) ∧
    invoke_agent (.ok (some [AgentEvent.trace, AgentEvent.other,
      AgentEvent.chunkNoBytes])) = .ok "" := by
  refine ⟨rfl, ?_⟩
  exact (c4_empty_completion
    [AgentEvent.trace, AgentEvent.other, AgentEvent.chunkNoBytes] rfl).2

/-- C1 counterexample: a POST whose body parses to the empty JSON object
has no entry key, so the walk evaluates the empty default list at index
zero, raises IndexError, and the dispatcher answers 500 — not 200 with
the informational body, and the claim that no exception escapes the
extraction is false. -/
theorem c1_counterexample :
    (lambda_handler ⟨"secret"⟩ (.ok none) (.ok 200)
        ⟨some "POST", none, some (.ok (.obj []))⟩).1 =
      ⟨500, .jsonError "list index out of range"⟩ := rfl

/-- C1 amended: when the walk down to the value object succeeds and the
messages entry is absent or falsy, the dispatcher answers 200 with the
informational body and neither the agent backend nor the transport is
invoked; but a missing entry or changes key (or an empty list at either
index) raises IndexError, which escapes to the dispatcher catch and
yields 500. -/
theorem c1_no_message (cfg : Config) (backend : BackendResult)
    (transport : TransportResult) (event : LambdaEvent)
    (parsedBody messages : Json)
    (hmethod : event.httpMethod = some "POST")
    (hbody : rawBodyParse event = .ok parsedBody)
    (hmsgs : extractMessages parsedBody = .ok messages)
    (hfalsy : messages.falsy = true) :
    lambda_handler cfg backend transport event =
      (⟨200, .jsonMessage "No message object found in webhook"⟩, ⟨[], []⟩) := by
  rw [lambda_handler_post cfg backend transport event hmethod]
  simp [hbody, postHandler, hmsgs, hfalsy]

/-- C1 witness for the amended statement: a payload whose value object
lacks the messages key. -/
theorem c1_no_message_witness :
    lambda_handler ⟨"secret"⟩ (.ok none) (.ok 200)
        ⟨some "POST", none, some (.ok (.obj [("entry", .arr [.obj [("changes",
          .arr [.obj [("value", .obj [])]])]])]))⟩ =
      (⟨200, .jsonMessage "No message object found in webhook"⟩, ⟨[], []⟩) :=
  c1_no_message ⟨"secret"⟩ (.ok none) (.ok 200)
    ⟨some "POST", none, some (.ok (.obj [("entry", .arr [.obj [("changes",
      .arr [.obj [("value", .obj [])]])]])]))⟩
    (.obj [("entry", .arr [.obj [("changes", .arr [.obj [("value", .obj [])]])]])])
    (.arr []) rfl rfl rfl rfl

/-- C3: on a GET request the status is 200 exactly when hub.mode is the
literal subscribe and hub.verify_token equals the configured secret; in
that case the body is the hub.challenge value verbatim, and in every
other case the response is 403 with the one fixed JSON error body. -/
theorem c3_get_verification (cfg : Config) (backend : BackendResult)
    (transport : TransportResult) (event : LambdaEvent)
    (hmethod : event.httpMethod = some "GET") :
    ((lambda_handler cfg backend transport event).1.statusCode = 200 ↔
      (event.queryStringParameters.getD []).lookup "hub.mode" = some "subscribe" ∧
      (event.queryStringParameters.getD []).lookup "hub.verify_token" =
        some cfg.verifyToken) ∧
    (((event.queryStringParameters.getD []).lookup "hub.mode" = some "subscribe" ∧
        (event.queryStringParameters.getD []).lookup "hub.verify_token" =
          some cfg.verifyToken) →
      (lambda_handler cfg backend transport event).1 =
        ⟨200, .raw ((event.queryStringParameters.getD []).lookup "hub.challenge")⟩) ∧
    (¬((event.queryStringParameters.getD []).lookup "hub.mode" = some "subscribe" ∧
        (event.queryStringParameters.getD []).lookup "hub.verify_token" =
          some cfg.verifyToken) →
      (lambda_handler cfg backend transport event).1 =
        ⟨403, .jsonError "Invalid verification token"⟩) := by
  rw [lambda_handler_get cfg backend transport event hmethod]
  by_cases h : (event.queryStringParameters.getD []).lookup "hub.mode" = some "subscribe" ∧
      (event.queryStringParameters.getD []).lookup "hub.verify_token" =
        some cfg.verifyToken
  · simp [h]
  · simp [h]

/-- C3 witness: the documented handshake scenario, with the configured
secret SECRET and challenge XYZ123. -/
theorem c3_get_verification_witness :
    (lambda_handler ⟨"SECRET"⟩ (.ok none) (.ok 200)
        ⟨some "GET", some [("hub.mode", "subscribe"), ("hub.verify_token", "SECRET"),
          ("hub.challenge", "XYZ123")], none⟩).1 =
      ⟨200, .raw (some "XYZ123")⟩ := by
  have h := c3_get_verification ⟨"SECRET"⟩ (.ok none) (.ok 200)
    ⟨some "GET", some [("hub.mode", "subscribe"), ("hub.verify_token", "SECRET"),
      ("hub.challenge", "XYZ123")], none⟩ rfl
  exact (h.2.1 ⟨rfl, rfl⟩).trans (by rfl)

/-- C9: a request whose method is neither GET nor POST (an absent method
reads as the empty string) is answered with 405 and a JSON body naming
the rejected method, and no collaborator is invoked. -/
theorem c9_method_not_allowed (cfg : Config) (backend : BackendResult)
    (transport : TransportResult) (event : LambdaEvent)
    (hget : event.httpMethod.getD "" ≠ "GET")
    (hpost : event.httpMethod.getD "" ≠ "POST") :
    lambda_handler cfg backend transport event =
      (⟨405, .jsonError ("Method " ++ event.httpMethod.getD "" ++ " not allowed")⟩,
        ⟨[], []⟩) := by
  simp [lambda_handler, hget, hpost]

/-- C9 witness: an event with no httpMethod key is rejected with the
empty method name in the body. -/
theorem c9_method_not_allowed_witness :
    lambda_handler ⟨"secret"⟩ (.ok none) (.ok 200) ⟨none, none, none⟩ =
      (⟨405, .jsonError "Method  not allowed"⟩, ⟨[], []⟩) := by
  have h := c9_method_not_allowed ⟨"secret"⟩ (.ok none) (.ok 200) ⟨none, none, none⟩
    (by decide) (by decide)
  simpa using h

/-- C10: a GET whose mode and token match but whose hub.challenge
parameter is absent is still answered 200, and the body is the absent
challenge value itself, not a string and not an error. -/
theorem c10_absent_challenge (cfg : Config) (backend : BackendResult)
    (transport : TransportResult) (event : LambdaEvent)
    (hmethod : event.httpMethod = some "GET")
    (hmode : (event.queryStringParameters.getD []).lookup "hub.mode" = some "subscribe")
    (htoken : (event.queryStringParameters.getD []).lookup "hub.verify_token" =
      some cfg.verifyToken)
    (hchallenge : (event.queryStringParameters.getD []).lookup "hub.challenge" = none) :
    lambda_handler cfg backend transport event = (⟨200, .raw none⟩, ⟨[], []⟩) := by
  rw [lambda_handler_get cfg backend transport event hmethod]
  simp [hmode, htoken, hchallenge]

/-- C10 witness: matching mode and token with no challenge parameter. -/
theorem c10_absent_challenge_witness :
    lambda_handler ⟨"TOPSECRET"⟩ (.ok none) (.ok 200)
        ⟨some "GET", some [("hub.mode", "subscribe"), ("hub.verify_token", "TOPSECRET")],
          none⟩ =
      (⟨200, .raw none⟩, ⟨[], []⟩) :=
  c10_absent_challenge ⟨"TOPSECRET"⟩ (.ok none) (.ok 200)
    ⟨some "GET", some [("hub.mode", "subscribe"), ("hub.verify_token", "TOPSECRET")], none⟩
    rfl rfl rfl rfl

/-- C7: on POST, a body that fails to parse is answered 500 with the
parse failure text in the JSON error body, and any error raised by the
rest of the POST path after parsing is mapped to the very same 500 shape
at the dispatcher boundary, so the two are indistinguishable. -/
theorem c7_post_error_to_500 (cfg : Config) (backend : BackendResult)
    (transport : TransportResult) (event : LambdaEvent) (errMsg : String)
    (hmethod : event.httpMethod = some "POST") :
    (rawBodyParse event = .error errMsg →
      lambda_handler cfg backend transport event =
        (⟨500, .jsonError errMsg⟩, ⟨[], []⟩)) ∧
    (∀ parsedBody, rawBodyParse event = .ok parsedBody →
      (postHandler backend transport parsedBody).1 = .error errMsg →
      (lambda_handler cfg backend transport event).1 =
        ⟨500, .jsonError errMsg⟩) := by
  constructor
  · intro hparse
    rw [lambda_handler_post cfg backend transport event hmethod]
    simp [hparse]
  · intro parsedBody hparse hpost
    rw [lambda_handler_post cfg backend transport event hmethod]
    rcases hpair : postHandler backend transport parsedBody with ⟨r, fx⟩
    rw [hpair] at hpost
    simp only at hpost
    subst hpost
    simp [hparse, hpair]

/-- C7 witness: a body that is not JSON, with the CPython parse error
text. -/
theorem c7_post_error_to_500_witness :
    lambda_handler ⟨"secret"⟩ (.ok none) (.ok 200)
        ⟨some "POST", none, some (.error "Expecting value: line 1 column 1 (char 0)")⟩ =
      (⟨500, .jsonError "Expecting value: line 1 column 1 (char 0)"⟩, ⟨[], []⟩) :=
  (c7_post_error_to_500 ⟨"secret"⟩ (.ok none) (.ok 200)
    ⟨some "POST", none, some (.error "Expecting value: line 1 column 1 (char 0)")⟩
    "Expecting value: line 1 column 1 (char 0)" rfl).1 rfl

/-- C5 counterexample: on a message-bearing POST, a transport-level
backend failure (a BotoCoreError such as a connect timeout, not a
ClientError) is not caught by invoke_agent: the dispatcher answers 500,
not 200, and the transport is never invoked — refuting the claim that
every backend failure degrades to a 200 with a sent error text. -/
theorem c5_counterexample :
    (lambda_handler ⟨"secret"⟩ (.botoCoreError "Connect timeout on endpoint URL")
        (.ok 200)
        ⟨some "POST", none, some (.ok (.obj [("entry", .arr [.obj [("changes",
          .arr [.obj [("value", .obj [("messages", .arr [.obj [("from", .str "15551234567"),
            ("text", .obj [("body", .str "hi")])]])])]])]])]))⟩).1 =
      ⟨500, .jsonError "Connect timeout on endpoint URL"⟩ ∧
    (lambda_handler ⟨"secret"⟩ (.botoCoreError "Connect timeout on endpoint URL")
        (.ok 200)
        ⟨some "POST", none, some (.ok (.obj [("entry", .arr [.obj [("changes",
          .arr [.obj [("value", .obj [("messages", .arr [.obj [("from", .str "15551234567"),
            ("text", .obj [("body", .str "hi")])]])])]])]])]))⟩).2.sends = [] := by
  exact ⟨rfl, rfl⟩

/-- C5 amended: a backend failure surfacing as a ClientError (a service
error response) is caught inside invoke_agent and becomes a text
embedding the error description; the dispatcher still answers 200 and
the transport is invoked with the sender and that degraded text. A
transport-level failure (a BotoCoreError, e.g. a connect or read
timeout) is not caught by the except ClientError clause: it escapes
invoke_agent, the dispatcher catch-all answers 500 with the error
description, and the transport is not invoked. -/
theorem c5_backend_failure (cfg : Config) (transport : TransportResult)
    (event : LambdaEvent) (parsedBody messages message fromNumber textMessage : Json)
    (errMsg : String)
    (hmethod : event.httpMethod = some "POST")
    (hbody : rawBodyParse event = .ok parsedBody)
    (hmsgs : extractMessages parsedBody = .ok messages)
    (hfalsy : messages.falsy = false)
    (hmsg0 : index0 messages = .ok message)
    (hfrom : extractSender message = .ok fromNumber)
    (htext : extractText message = .ok textMessage) :
    invoke_agent (.clientError errMsg) = .ok ("Error invoking agent: " ++ errMsg) ∧
    lambda_handler cfg (.clientError errMsg) transport event =
      (⟨200, .jsonMessage "Message processed"⟩,
        ⟨[(textMessage, fromNumber)],
          [(fromNumber, "Error invoking agent: " ++ errMsg)]⟩) ∧
    invoke_agent (.botoCoreError errMsg) = .error errMsg ∧
    lambda_handler cfg (.botoCoreError errMsg) transport event =
      (⟨500, .jsonError errMsg⟩, ⟨[(textMessage, fromNumber)], []⟩) := by
  refine ⟨rfl, ?_, rfl, ?_⟩
  · exact lambda_handler_post_message cfg (.clientError errMsg) transport event
      parsedBody messages message fromNumber textMessage
      ("Error invoking agent: " ++ errMsg) hmethod hbody hmsgs hfalsy hmsg0 hfrom
      htext rfl
  · rw [lambda_handler_post cfg (.botoCoreError errMsg) transport event hmethod]
    simp [hbody, postHandler, hmsgs, hfalsy, hmsg0, hfrom, htext, invoke_agent]

/-- C5 witness: a message-bearing delivery, once with a ClientError and
once with a transport failure. -/
theorem c5_backend_failure_witness :
    lambda_handler ⟨"secret"⟩ (.clientError "boom") (.ok 200)
        ⟨some "POST", none, some (.ok (.obj [("entry", .arr [.obj [("changes",
          .arr [.obj [("value", .obj [("messages", .arr [.obj [("from", .str "15551234567"),
            ("text", .obj [("body", .str "hi")])]])])]])]])]))⟩ =
      (⟨200, .jsonMessage "Message processed"⟩,
        ⟨[(.str "hi", .str "15551234567")],
          [(.str "15551234567", "Error invoking agent: boom")]⟩) := by
  have h := c5_backend_failure ⟨"secret"⟩ (.ok 200)
    ⟨some "POST", none, some (.ok (.obj [("entry", .arr [.obj [("changes",
      .arr [.obj [("value", .obj [("messages", .arr [.obj [("from", .str "15551234567"),
        ("text", .obj [("body", .str "hi")])]])])]])]])]))⟩
    (.obj [("entry", .arr [.obj [("changes",
      .arr [.obj [("value", .obj [("messages", .arr [.obj [("from", .str "15551234567"),
        ("text", .obj [("body", .str "hi")])]])])]])]])])
    (.arr [.obj [("from", .str "15551234567"), ("text", .obj [("body", .str "hi")])]])
    (.obj [("from", .str "15551234567"), ("text", .obj [("body", .str "hi")])])
    (.str "15551234567") (.str "hi") "boom" rfl rfl rfl rfl rfl rfl rfl
  simpa using h.2.1

/-- C6: a non-empty messages array makes the handler process exactly its
first element, whatever follows it: the agent is queried with the first
message text and its sender as session key, the reply is sent to that
sender, and the text defaults to the empty string when the text
sub-object or its body field is absent. (The 200 and the send are
stated for backend calls that return normally; an uncaught transport
error is the corrected C5 path.) -/
theorem c6_first_message_only (cfg : Config) (backend : BackendResult)
    (transport : TransportResult) (event : LambdaEvent) (parsedBody : Json)
    (m : Json) (rest : List Json) (fromNumber textMessage : Json)
    (agentResponse : String)
    (hmethod : event.httpMethod = some "POST")
    (hbody : rawBodyParse event = .ok parsedBody)
    (hmsgs : extractMessages parsedBody = .ok (.arr (m :: rest)))
    (hfrom : extractSender m = .ok fromNumber)
    (htext : extractText m = .ok textMessage)
    (hagent : invoke_agent backend = .ok agentResponse) :
    lambda_handler cfg backend transport event =
      (⟨200, .jsonMessage "Message processed"⟩,
        ⟨[(textMessage, fromNumber)], [(fromNumber, agentResponse)]⟩) ∧
    (∀ fields, m = .obj fields → fields.lookup "text" = none →
      textMessage = .str "") ∧
    (∀ fields textFields, m = .obj fields →
      fields.lookup "text" = some (.obj textFields) →
      textFields.lookup "body" = none → textMessage = .str "") := by
  refine ⟨?_, ?_, ?_⟩
  · exact lambda_handler_post_message cfg backend transport event parsedBody
      (.arr (m :: rest)) m fromNumber textMessage agentResponse hmethod hbody hmsgs
      rfl rfl hfrom htext hagent
  · intro fields hm hnone
    subst hm
    simp [extractText, dictGet, hnone, Bind.bind, Except.bind] at htext
    exact htext.symm
  · intro fields textFields hm htf hnone
    subst hm
    simp [extractText, dictGet, htf, hnone, Bind.bind, Except.bind] at htext
    exact htext.symm

/-- C6 witness: two messages in one delivery; only the first is
processed, and its absent text object defaults to the empty string. -/
theorem c6_first_message_only_witness :
    lambda_handler ⟨"secret"⟩ (.ok (some [.chunk "Hi"])) (.ok 200)
        ⟨some "POST", none, some (.ok (.obj [("entry", .arr [.obj [("changes",
          .arr [.obj [("value", .obj [("messages", .arr [.obj [("from", .str "111")],
            .obj [("from", .str "222"),
              ("text", .obj [("body", .str "later")])]])])]])]])]))⟩ =
      (⟨200, .jsonMessage "Message processed"⟩,
        ⟨[(.str "", .str "111")], [(.str "111", "Hi")]⟩) := by
  have h := c6_first_message_only ⟨"secret"⟩ (.ok (some [.chunk "Hi"])) (.ok 200)
    ⟨some "POST", none, some (.ok (.obj [("entry", .arr [.obj [("changes",
      .arr [.obj [("value", .obj [("messages", .arr [.obj [("from", .str "111")],
        .obj [("from", .str "222"), ("text", .obj [("body", .str "later")])]])])]])]])]))⟩
    (.obj [("entry", .arr [.obj [("changes",
      .arr [.obj [("value", .obj [("messages", .arr [.obj [("from", .str "111")],
        .obj [("from", .str "222"), ("text", .obj [("body", .str "later")])]])])]])]])])
    (.obj [("from", .str "111")])
    [.obj [("from", .str "222"), ("text", .obj [("body", .str "later")])]]
    (.str "111") (.str "") "Hi" rfl rfl rfl rfl rfl rfl
  simpa using h.1

/-- C8: the outcome of the outbound transport call never changes the
handler result — a raised transport exception is swallowed inside
send_whatsapp_message — so a processed message is still answered 200
with the success body, and the send is still recorded, when delivery
fails. -/
theorem c8_send_failure_invisible (cfg : Config) (backend : BackendResult)
    (event : LambdaEvent) (parsedBody messages message fromNumber textMessage : Json)
    (agentResponse errMsg : String) (transport : TransportResult)
    (hmethod : event.httpMethod = some "POST")
    (hbody : rawBodyParse event = .ok parsedBody)
    (hmsgs : extractMessages parsedBody = .ok messages)
    (hfalsy : messages.falsy = false)
    (hmsg0 : index0 messages = .ok message)
    (hfrom : extractSender message = .ok fromNumber)
    (htext : extractText message = .ok textMessage)
    (hagent : invoke_agent backend = .ok agentResponse) :
    lambda_handler cfg backend (.failure errMsg) event =
      lambda_handler cfg backend transport event ∧
    lambda_handler cfg backend (.failure errMsg) event =
      (⟨200, .jsonMessage "Message processed"⟩,
        ⟨[(textMessage, fromNumber)], [(fromNumber, agentResponse)]⟩) := by
  refine ⟨rfl, ?_⟩
  exact lambda_handler_post_message cfg backend (.failure errMsg) event parsedBody
    messages message fromNumber textMessage agentResponse hmethod hbody hmsgs hfalsy
    hmsg0 hfrom htext hagent

/-- C8 witness: a processed message whose delivery raises. -/
theorem c8_send_failure_invisible_witness :
    lambda_handler ⟨"secret"⟩ (.ok (some [.chunk "Hello"])) (.failure "connection reset")
        ⟨some "POST", none, some (.ok (.obj [("entry", .arr [.obj [("changes",
          .arr [.obj [("value", .obj [("messages", .arr [.obj [("from", .str "15551234567"),
            ("text", .obj [("body", .str "hi")])]])])]])]])]))⟩ =
      (⟨200, .jsonMessage "Message processed"⟩,
        ⟨[(.str "hi", .str "15551234567")], [(.str "15551234567", "Hello")]⟩) := by
  have h := c8_send_failure_invisible ⟨"secret"⟩ (.ok (some [.chunk "Hello"]))
    ⟨some "POST", none, some (.ok (.obj [("entry", .arr [.obj [("changes",
      .arr [.obj [("value", .obj [("messages", .arr [.obj [("from", .str "15551234567"),
        ("text", .obj [("body", .str "hi")])]])])]])]])]))⟩
    (.obj [("entry", .arr [.obj [("changes",
      .arr [.obj [("value", .obj [("messages", .arr [.obj [("from", .str "15551234567"),
        ("text", .obj [("body", .str "hi")])]])])]])]])])
    (.arr [.obj [("from", .str "15551234567"), ("text", .obj [("body", .str "hi")])]])
    (.obj [("from", .str "15551234567"), ("text", .obj [("body", .str "hi")])])
    (.str "15551234567") (.str "hi") "Hello" "connection reset" (.ok 200)
    rfl rfl rfl rfl rfl rfl rfl rfl
  simpa using h.2

end WhatsappWebhook
